import Mathlib

/-!
# Verification of the escalator autoscaler controller core

Shallow embedding of `pkg/controller/controller.go` (the scaling decision
engine, per-node-group state and the control loop sweep) and proofs of the
specification claims about it.

Modelling conventions:
* Go `int` values (thresholds, rates, bounds, deltas, milli-quantities) are
  modelled as `Int`; list lengths are `Nat` and coerced where the Go code
  compares them with `int` configuration values.
* `resource.Quantity` is external to this core; only its `MilliValue()` (and,
  for two gauges, `AsInt64()`) is consulted, so it is modelled by its milli
  value.
* Go `float64` arithmetic in `calcPercentUsage` and `math.Max`/`int(...)`
  is modelled by exact rational arithmetic over `ℚ` with truncation toward
  zero (the semantics of Go's float-to-int conversion).
* External collaborators (listers, the to-be-removed taint predicate, the
  request/capacity aggregation, the three mutation operations, the metrics
  and log sinks) are modelled as an explicit environment `Env`; the taint
  predicate result is carried on the node itself.  Observable side effects
  (log lines, gauge updates, mutation invocations) are reified as an event
  trace that the engine returns, in emission order.
* The mutation operations may mutate the per-group simulated taint tracker
  through the node-group reference they receive; this is modelled by having
  them return the new tracker contents.
-/

/-- A node, as the engine sees it: its name and the (externally determined)
result of the `k8s.GetToBeRemovedTaint` predicate for it. -/
structure Node where
  name : String
  markedForRemoval : Bool
  deriving DecidableEq, Repr

/-- A pod; the engine only counts pods and hands them to the external
aggregation, so its contents are opaque. -/
structure Pod where
  name : String
  deriving DecidableEq, Repr

/-- `resource.Quantity`, reduced to the milli value the core consults. -/
structure Quantity where
  milli : Int
  deriving DecidableEq, Repr

/-- `Quantity.MilliValue()`. -/
def Quantity.MilliValue (q : Quantity) : Int := q.milli

/-- `Quantity.AsInt64()` (whole units; used only for the two memory gauges). -/
def Quantity.AsInt64 (q : Quantity) : Int := q.milli / 1000

/-- `NodeGroupOptions`: the static per-group policy referenced by
`controller.go` (name, bounds, the three thresholds, the three rates and the
per-group dry-mode flag). -/
structure NodeGroupOptions where
  Name : String
  MinNodes : Int
  MaxNodes : Int
  DryMode : Bool
  TaintLowerCapacityThreshholdPercent : Int
  TaintUpperCapacityThreshholdPercent : Int
  ScaleUpThreshholdPercent : Int
  FastNodeRemovalRate : Int
  SlowNodeRemovalRate : Int
  FastNodeRevivalRate : Int
  deriving DecidableEq, Repr

/-- `NodeGroupState`: per-group options plus the simulated taint tracker used
in dry mode.  The lister lives in the external environment `Env`. -/
structure NodeGroupState where
  Opts : NodeGroupOptions
  taintTracker : List String
  deriving DecidableEq, Repr

/-- Controller-level `Opts` (the fields the decision engine consults). -/
structure Opts where
  DryMode : Bool
  deriving DecidableEq, Repr

/-- `scaleOpts`: the argument bundle passed to a mutation operation. -/
structure ScaleOpts where
  nodes : List Node
  taintedNodes : List Node
  untaintedNodes : List Node
  pods : List Pod
  nodeGroup : NodeGroupState
  clusterUsagePercent : Int
  nodesDelta : Int
  deriving DecidableEq, Repr

/-- Result of an external mutation operation (`ScaleDown`, `ScaleUp`,
`TryRemoveTaintedNodes`): the nodes-affected count, the error, and the
contents of the simulated taint tracker after the call (the operations mutate
the tracker through the node-group reference they are handed). -/
structure MutResult where
  affected : Int
  err : Option String
  tracker : List String
  deriving DecidableEq, Repr

/-- The external collaborators of one cycle: the group's listers, the
aggregation helpers and the three mutation operations. -/
structure Env where
  listPods : Except String (List Pod)
  listNodes : Except String (List Node)
  podRequestsTotal : List Pod → Except String (Quantity × Quantity)
  nodeCapacityTotal : List Node → Except String (Quantity × Quantity)
  scaleDown : ScaleOpts → MutResult
  scaleUp : ScaleOpts → MutResult
  reap : ScaleOpts → MutResult

/-- One observable side effect of a cycle, in emission order: log lines,
gauge updates and mutation invocations. -/
inductive Event where
  | errListPods : Event
  | errListNodes : Event
  | logNodesTotal : Nat → Event
  | logNodesUntainted : Nat → Event
  | logNodesTainted : Nat → Event
  | gaugeNodes : Nat → Event
  | gaugeNodesUntainted : Nat → Event
  | gaugeNodesTainted : Nat → Event
  | gaugePods : Nat → Event
  | warnNoNodes : Event
  | warnBelowMin : Int → Int → Event
  | warnAboveMax : Int → Int → Event
  | errRequests : Event
  | errCapacity : Event
  | gaugeCPURequest : Int → Event
  | gaugeMemRequest : Int → Event
  | gaugeCPUCapacity : Int → Event
  | gaugeMemCapacity : Int → Event
  | errPercent : Event
  | logPercents : ℚ → ℚ → Event
  | gaugeCPUPercent : ℚ → Event
  | gaugeMemPercent : ℚ → Event
  | logDelta : Int → Event
  | mutScaleDown : ScaleOpts → Event
  | mutScaleUp : ScaleOpts → Event
  | mutReap : ScaleOpts → Event
  | logNoScale : Event
  | mutErrorLogged : Event
  | logRemoved : Int → Event
  | logDeltaScaled : Int → Event
  deriving DecidableEq, Repr

/-- Is this event one of the three mutation invocations? -/
def Event.isMutation : Event → Bool
  | .mutScaleDown _ => true
  | .mutScaleUp _ => true
  | .mutReap _ => true
  | _ => false

/-- Is this event one of the three bounds-guard warnings? -/
def Event.isWarning : Event → Bool
  | .warnNoNodes => true
  | .warnBelowMin _ _ => true
  | .warnAboveMax _ _ => true
  | _ => false

/-- Is this event a reap (`TryRemoveTaintedNodes`) invocation? -/
def Event.isReap : Event → Bool
  | .mutReap _ => true
  | _ => false

/-- Is this event a scale-down invocation? -/
def Event.isScaleDown : Event → Bool
  | .mutScaleDown _ => true
  | _ => false

/-- Is this event a scale-up invocation? -/
def Event.isScaleUp : Event → Bool
  | .mutScaleUp _ => true
  | _ => false

/-- The cluster-usage percentage carried by a mutation event, if any. -/
def Event.usagePayload : Event → Option Int
  | .mutScaleDown so => some so.clusterUsagePercent
  | .mutScaleUp so => some so.clusterUsagePercent
  | .mutReap so => some so.clusterUsagePercent
  | _ => none

/-- Does the trace contain a mutation invocation? -/
def hasMutation (tr : List Event) : Bool := tr.any Event.isMutation

/-- Did the `Except` computation fail? -/
def isError {ε α : Type} : Except ε α → Bool
  | .error _ => true
  | .ok _ => false

/-- `Controller.dryMode`: the overall dry-mode of controller and group. -/
def dryMode (c : Opts) (nodeGroup : NodeGroupState) : Bool :=
  c.DryMode || nodeGroup.Opts.DryMode

/-- Truncation of a rational toward zero: the semantics of Go's
`int(float64)` conversion. -/
def ratTrunc (q : ℚ) : Int := if q < 0 then -⌊-q⌋ else ⌊q⌋

/-- `calcPercentUsage`: percentage of cpu and mem for request/capacity.
Fails when either capacity has milli value zero; Go's `float64` division is
modelled by exact division in `ℚ`. -/
def calcPercentUsage (cpuR memR cpuA memA : Quantity) :
    Except String (ℚ × ℚ) :=
  if cpuA.MilliValue = 0 ∨ memA.MilliValue = 0 then
    .error "Cannot divide by zero in percent calculation"
  else
    .ok ((cpuR.MilliValue : ℚ) / (cpuA.MilliValue : ℚ) * 100,
         (memR.MilliValue : ℚ) / (memA.MilliValue : ℚ) * 100)

/-- Whether a node counts as tainted in this cycle: in dry mode, membership
of its name in the simulated taint tracker; otherwise the external
to-be-removed taint predicate. -/
def nodeTainted (c : Opts) (nodeGroup : NodeGroupState) (node : Node) : Bool :=
  if dryMode c nodeGroup then nodeGroup.taintTracker.contains node.name
  else node.markedForRemoval

/-- The untainted sublist of `allNodes` (the Go filter loop, kept in order). -/
def untaintedOf (c : Opts) (nodeGroup : NodeGroupState)
    (allNodes : List Node) : List Node :=
  allNodes.filter (fun node => !nodeTainted c nodeGroup node)

/-- The tainted sublist of `allNodes` (the Go filter loop, kept in order). -/
def taintedOf (c : Opts) (nodeGroup : NodeGroupState)
    (allNodes : List Node) : List Node :=
  allNodes.filter (fun node => nodeTainted c nodeGroup node)

/-- The seven node/pod count log lines and gauges emitted right after
partitioning, before the bounds guard (controller.go lines 139–145). -/
def baseEvents (allNodes untaintedNodes taintedNodes : List Node)
    (pods : List Pod) : List Event :=
  [.logNodesTotal allNodes.length,
   .logNodesUntainted untaintedNodes.length,
   .logNodesTainted taintedNodes.length,
   .gaugeNodes allNodes.length,
   .gaugeNodesUntainted untaintedNodes.length,
   .gaugeNodesTainted taintedNodes.length,
   .gaugePods pods.length]

/-- The four aggregated request/capacity gauges (controller.go lines
183–188). -/
def aggEvents (cpuRequest memRequest cpuCapacity memCapacity : Quantity) :
    List Event :=
  [.gaugeCPURequest cpuRequest.MilliValue,
   .gaugeMemRequest memRequest.AsInt64,
   .gaugeCPUCapacity cpuCapacity.MilliValue,
   .gaugeMemCapacity memCapacity.AsInt64]

/-- The scaling-decision switch (controller.go lines 207–221): first-match
wins among fast removal, slow removal, fast revival; otherwise zero. -/
def calcDelta (opts : NodeGroupOptions) (maxPercent : Int) : Int :=
  if maxPercent < opts.TaintLowerCapacityThreshholdPercent then
    -opts.FastNodeRemovalRate
  else if maxPercent < opts.TaintUpperCapacityThreshholdPercent then
    -opts.SlowNodeRemovalRate
  else if maxPercent > opts.ScaleUpThreshholdPercent then
    opts.FastNodeRevivalRate
  else 0

/-- `int(math.Max(cpuPercent, memPercent))`: the single usage signal. -/
def usageSignal (cpuPercent memPercent : ℚ) : Int :=
  ratTrunc (max cpuPercent memPercent)

/-- The events a mutation error produces (the group-level error log). -/
def mutErrEvents (err : Option String) : List Event :=
  match err with
  | some _ => [.mutErrorLogged]
  | none => []

/-- Dispatch by the sign of the delta (controller.go lines 225–272): scale
down with `|delta|`, scale up with `delta`, or reap the tainted nodes, each
taking the full cycle context; mutation errors are logged at group level. -/
def dispatch (env : Env) (nodeGroup : NodeGroupState)
    (allNodes taintedNodes untaintedNodes : List Node) (pods : List Pod)
    (maxPercent : Int) (evs : List Event) : List Event × NodeGroupState :=
  let nodesDelta := calcDelta nodeGroup.Opts maxPercent
  if nodesDelta < 0 then
    -- Try to scale down
    let so : ScaleOpts :=
      ⟨allNodes, taintedNodes, untaintedNodes, pods, nodeGroup, maxPercent,
       -nodesDelta⟩
    let r := env.scaleDown so
    (evs ++ [.logDelta nodesDelta, .mutScaleDown so] ++ mutErrEvents r.err ++
       [.logDeltaScaled r.affected],
     ⟨nodeGroup.Opts, r.tracker⟩)
  else if nodesDelta > 0 then
    -- Try to scale up
    let so : ScaleOpts :=
      ⟨allNodes, taintedNodes, untaintedNodes, pods, nodeGroup, maxPercent,
       nodesDelta⟩
    let r := env.scaleUp so
    (evs ++ [.logDelta nodesDelta, .mutScaleUp so] ++ mutErrEvents r.err ++
       [.logDeltaScaled r.affected],
     ⟨nodeGroup.Opts, r.tracker⟩)
  else
    -- No need to scale: advance already-tainted nodes toward removal
    let so : ScaleOpts :=
      ⟨allNodes, taintedNodes, untaintedNodes, pods, nodeGroup, maxPercent, 0⟩
    let r := env.reap so
    (evs ++ [.logDelta nodesDelta, .logNoScale, .mutReap so] ++
       mutErrEvents r.err ++ [.logRemoved r.affected, .logDeltaScaled 0],
     ⟨nodeGroup.Opts, r.tracker⟩)

/-- The cycle after both listings succeeded (controller.go lines 112–272):
partition, count gauges, bounds guard, aggregation, percentages, decision and
dispatch. -/
def scaleNodeGroupBody (c : Opts) (env : Env) (nodeGroup : NodeGroupState)
    (pods : List Pod) (allNodes : List Node) : List Event × NodeGroupState :=
  let untaintedNodes := untaintedOf c nodeGroup allNodes
  let taintedNodes := taintedOf c nodeGroup allNodes
  let base := baseEvents allNodes untaintedNodes taintedNodes pods
  if allNodes.length = 0 then
    (base ++ [.warnNoNodes], nodeGroup)
  else if (allNodes.length : Int) < nodeGroup.Opts.MinNodes then
    (base ++ [.warnBelowMin (allNodes.length : Int) nodeGroup.Opts.MinNodes],
     nodeGroup)
  else if (allNodes.length : Int) > nodeGroup.Opts.MaxNodes then
    (base ++ [.warnAboveMax (allNodes.length : Int) nodeGroup.Opts.MaxNodes],
     nodeGroup)
  else
    match env.podRequestsTotal pods with
    | .error _ => (base ++ [.errRequests], nodeGroup)
    | .ok (memRequest, cpuRequest) =>
      match env.nodeCapacityTotal untaintedNodes with
      | .error _ => (base ++ [.errCapacity], nodeGroup)
      | .ok (memCapacity, cpuCapacity) =>
        let agg := aggEvents cpuRequest memRequest cpuCapacity memCapacity
        match calcPercentUsage cpuRequest memRequest cpuCapacity memCapacity with
        | .error _ => (base ++ agg ++ [.errPercent], nodeGroup)
        | .ok (cpuPercent, memPercent) =>
          dispatch env nodeGroup allNodes taintedNodes untaintedNodes pods
            (usageSignal cpuPercent memPercent)
            (base ++ agg ++
             [.logPercents cpuPercent memPercent,
              .gaugeCPUPercent cpuPercent, .gaugeMemPercent memPercent])

/-- `Controller.scaleNodeGroup`: one decision cycle for one node group,
returning the emitted event trace and the node-group state afterwards. -/
def scaleNodeGroup (c : Opts) (env : Env) (nodeGroup : NodeGroupState) :
    List Event × NodeGroupState :=
  match env.listPods with
  | .error _ => ([.errListPods], nodeGroup)
  | .ok pods =>
    match env.listNodes with
    | .error _ => ([.errListNodes], nodeGroup)
    | .ok allNodes => scaleNodeGroupBody c env nodeGroup pods allNodes

/-- `Controller.RunOnce`: one sweep, invoking the decision engine once per
configured node group, sequentially; `envs` supplies each group's external
collaborators by group name. -/
def RunOnce (c : Opts) (envs : String → Env)
    (nodeGroups : List (String × NodeGroupState)) :
    List (String × (List Event × NodeGroupState)) :=
  nodeGroups.map (fun p => (p.1, scaleNodeGroup c (envs p.1) p.2))

/-! ## General lemmas about the cycle -/

/-- When both listings succeed the cycle is the post-listing body. -/
theorem scaleNodeGroup_eq_body (c : Opts) (env : Env) (g : NodeGroupState)
    (pods : List Pod) (allNodes : List Node)
    (hp : env.listPods = .ok pods) (hn : env.listNodes = .ok allNodes) :
    scaleNodeGroup c env g = scaleNodeGroupBody c env g pods allNodes := by
  unfold scaleNodeGroup
  rw [hp, hn]

/-- On a zero or out-of-bounds node count, the body emits the base counts and
exactly one warning (chosen first-match) and returns the state unchanged. -/
theorem scaleNodeGroupBody_bounds (c : Opts) (env : Env) (g : NodeGroupState)
    (pods : List Pod) (allNodes : List Node)
    (hb : allNodes.length = 0 ∨ (allNodes.length : Int) < g.Opts.MinNodes ∨
          (allNodes.length : Int) > g.Opts.MaxNodes) :
    scaleNodeGroupBody c env g pods allNodes =
      (baseEvents allNodes (untaintedOf c g allNodes) (taintedOf c g allNodes)
          pods ++
        [if allNodes.length = 0 then Event.warnNoNodes
         else if (allNodes.length : Int) < g.Opts.MinNodes then
           Event.warnBelowMin (allNodes.length : Int) g.Opts.MinNodes
         else Event.warnAboveMax (allNodes.length : Int) g.Opts.MaxNodes],
       g) := by
  unfold scaleNodeGroupBody
  split_ifs with h1 h2 h3
  · rfl
  · rfl
  · rfl
  · omega

/-! ## The four policy branches, as the specification enumerates them -/

/-- The four policy branches of the threshold switch. -/
inductive PolicyBranch where
  | fastDown : PolicyBranch
  | slowDown : PolicyBranch
  | up : PolicyBranch
  | hold : PolicyBranch
  deriving DecidableEq, Repr

/-- The guard of each branch under first-match-wins evaluation in the fixed
order fast-down, slow-down, up, hold. -/
def branchGuard (opts : NodeGroupOptions) (maxPercent : Int) :
    PolicyBranch → Prop
  | .fastDown => maxPercent < opts.TaintLowerCapacityThreshholdPercent
  | .slowDown => ¬maxPercent < opts.TaintLowerCapacityThreshholdPercent ∧
      maxPercent < opts.TaintUpperCapacityThreshholdPercent
  | .up => ¬maxPercent < opts.TaintLowerCapacityThreshholdPercent ∧
      ¬maxPercent < opts.TaintUpperCapacityThreshholdPercent ∧
      maxPercent > opts.ScaleUpThreshholdPercent
  | .hold => ¬maxPercent < opts.TaintLowerCapacityThreshholdPercent ∧
      ¬maxPercent < opts.TaintUpperCapacityThreshholdPercent ∧
      ¬maxPercent > opts.ScaleUpThreshholdPercent

/-- The delta each branch assigns. -/
def branchDelta (opts : NodeGroupOptions) : PolicyBranch → Int
  | .fastDown => -opts.FastNodeRemovalRate
  | .slowDown => -opts.SlowNodeRemovalRate
  | .up => opts.FastNodeRevivalRate
  | .hold => 0

/-- C1: for every configuration and every integer usage value, the policy
switch selects exactly one of the four branches, evaluated first-match-wins
in the fixed order fast-down, slow-down, up, hold, and assigns the delta
`-fastRemovalRate`, `-slowRemovalRate`, `+fastRevivalRate` or `0` of the
selected branch; no ordering of the three thresholds is presupposed. -/
theorem policy_switch_total_exclusive (opts : NodeGroupOptions)
    (maxPercent : Int) :
    ∃! b : PolicyBranch, branchGuard opts maxPercent b ∧
      calcDelta opts maxPercent = branchDelta opts b := by
  unfold calcDelta
  by_cases h1 : maxPercent < opts.TaintLowerCapacityThreshholdPercent
  · refine ⟨.fastDown, ⟨h1, by simp [h1, branchDelta]⟩, ?_⟩
    rintro y ⟨hy, -⟩
    cases y <;> simp_all [branchGuard] <;> omega
  · by_cases h2 : maxPercent < opts.TaintUpperCapacityThreshholdPercent
    · refine ⟨.slowDown, ⟨⟨h1, h2⟩, by simp [h1, h2, branchDelta]⟩, ?_⟩
      rintro y ⟨hy, -⟩
      cases y <;> simp_all [branchGuard] <;> omega
    · by_cases h3 : maxPercent > opts.ScaleUpThreshholdPercent
      · refine ⟨.up, ⟨⟨h1, h2, h3⟩, by simp [h1, h2, h3, branchDelta]⟩, ?_⟩
        rintro y ⟨hy, -⟩
        cases y <;> simp_all [branchGuard] <;> omega
      · refine ⟨.hold, ⟨⟨h1, h2, h3⟩, by simp [h1, h2, h3, branchDelta]⟩, ?_⟩
        rintro y ⟨hy, -⟩
        cases y <;> simp_all [branchGuard] <;> omega

/-- A sample node-group configuration for concrete instantiations. -/
def sampleOpts : NodeGroupOptions :=
  ⟨"sample", 1, 10, false, 20, 50, 80, 2, 1, 3⟩

/-- A sample node-group state with an empty simulated taint tracker. -/
def sampleState : NodeGroupState := ⟨sampleOpts, []⟩

/-- A sample environment whose listings succeed with no pods and no nodes. -/
def sampleEmptyEnv : Env :=
  ⟨.ok [], .ok [], fun _ => .ok (⟨0⟩, ⟨0⟩), fun _ => .ok (⟨0⟩, ⟨0⟩),
   fun _ => ⟨0, none, []⟩, fun _ => ⟨0, none, []⟩, fun _ => ⟨0, none, []⟩⟩

/-- Concrete instantiation of the policy-switch theorem at usage 10. -/
theorem policy_switch_total_exclusive_witness :
    ∃! b : PolicyBranch, branchGuard sampleOpts 10 b ∧
      calcDelta sampleOpts 10 = branchDelta sampleOpts b :=
  policy_switch_total_exclusive sampleOpts 10

/-- C2: in every cycle whose listings succeed, a zero or out-of-bounds node
count makes the engine log exactly one warning and abort the cycle: the trace
is the base count signals plus that warning (so no aggregation gauges, no
percentages, no mutation events), the state is unchanged, and the outcome is
independent of the aggregation and mutation collaborators. -/
theorem bounds_guard_warns_and_aborts (c : Opts) (env : Env)
    (g : NodeGroupState) (pods : List Pod) (allNodes : List Node)
    (hp : env.listPods = .ok pods) (hn : env.listNodes = .ok allNodes)
    (hb : allNodes.length = 0 ∨ (allNodes.length : Int) < g.Opts.MinNodes ∨
          (allNodes.length : Int) > g.Opts.MaxNodes) :
    (∃ w : Event, w.isWarning = true ∧
        (scaleNodeGroup c env g).1 =
          baseEvents allNodes (untaintedOf c g allNodes)
            (taintedOf c g allNodes) pods ++ [w]) ∧
    (scaleNodeGroup c env g).2 = g ∧
    (∀ f h sd su rp, scaleNodeGroup c
        { env with podRequestsTotal := f, nodeCapacityTotal := h,
                   scaleDown := sd, scaleUp := su, reap := rp } g =
        scaleNodeGroup c env g) := by
  have key : ∀ env' : Env, env'.listPods = .ok pods →
      env'.listNodes = .ok allNodes →
      scaleNodeGroup c env' g =
        (baseEvents allNodes (untaintedOf c g allNodes)
            (taintedOf c g allNodes) pods ++
          [if allNodes.length = 0 then Event.warnNoNodes
           else if (allNodes.length : Int) < g.Opts.MinNodes then
             Event.warnBelowMin (allNodes.length : Int) g.Opts.MinNodes
           else Event.warnAboveMax (allNodes.length : Int) g.Opts.MaxNodes],
         g) := by
    intro env' hp' hn'
    rw [scaleNodeGroup_eq_body c env' g pods allNodes hp' hn',
      scaleNodeGroupBody_bounds c env' g pods allNodes hb]
  refine ⟨⟨_, ?_, by rw [key env hp hn]⟩, by rw [key env hp hn], ?_⟩
  · split_ifs <;> rfl
  · intro f h sd su rp
    rw [key env hp hn]
    exact key { env with podRequestsTotal := f, nodeCapacityTotal := h,
                         scaleDown := sd, scaleUp := su, reap := rp } hp hn

/-- Concrete instantiation of the bounds-guard theorem: an empty node list
with `MinNodes = 1` warns and leaves the state unchanged. -/
theorem bounds_guard_warns_and_aborts_witness :
    (∃ w : Event, w.isWarning = true ∧
        (scaleNodeGroup ⟨false⟩ sampleEmptyEnv sampleState).1 =
          baseEvents [] (untaintedOf ⟨false⟩ sampleState [])
            (taintedOf ⟨false⟩ sampleState []) [] ++ [w]) ∧
    (scaleNodeGroup ⟨false⟩ sampleEmptyEnv sampleState).2 = sampleState ∧
    (∀ f h sd su rp, scaleNodeGroup ⟨false⟩
        { sampleEmptyEnv with podRequestsTotal := f, nodeCapacityTotal := h,
                              scaleDown := sd, scaleUp := su, reap := rp }
        sampleState =
        scaleNodeGroup ⟨false⟩ sampleEmptyEnv sampleState) :=
  bounds_guard_warns_and_aborts ⟨false⟩ sampleEmptyEnv sampleState [] []
    rfl rfl (Or.inl rfl)

/-- On a zero capacity the body emits the base and aggregation signals and
then aborts with the percent-calculation error, state unchanged. -/
theorem scaleNodeGroupBody_percent_error (c : Opts) (env : Env)
    (g : NodeGroupState) (pods : List Pod) (allNodes : List Node)
    (memR cpuR memA cpuA : Quantity)
    (h0 : ¬allNodes.length = 0)
    (hmin : ¬(allNodes.length : Int) < g.Opts.MinNodes)
    (hmax : ¬(allNodes.length : Int) > g.Opts.MaxNodes)
    (hreq : env.podRequestsTotal pods = .ok (memR, cpuR))
    (hcap : env.nodeCapacityTotal (untaintedOf c g allNodes) =
      .ok (memA, cpuA))
    (hz : cpuA.MilliValue = 0 ∨ memA.MilliValue = 0) :
    scaleNodeGroupBody c env g pods allNodes =
      (baseEvents allNodes (untaintedOf c g allNodes)
          (taintedOf c g allNodes) pods ++
        aggEvents cpuR memR cpuA memA ++ [.errPercent], g) := by
  unfold scaleNodeGroupBody
  rw [if_neg h0, if_neg hmin, if_neg hmax, hreq, hcap]
  simp only [calcPercentUsage, if_pos hz]

/-- When every guard passes and the percentages are computed, the body is the
dispatch step applied to the computed usage and the emitted prefix. -/
theorem scaleNodeGroupBody_dispatch (c : Opts) (env : Env)
    (g : NodeGroupState) (pods : List Pod) (allNodes : List Node)
    (memR cpuR memA cpuA : Quantity) (cpuP memP : ℚ)
    (h0 : ¬allNodes.length = 0)
    (hmin : ¬(allNodes.length : Int) < g.Opts.MinNodes)
    (hmax : ¬(allNodes.length : Int) > g.Opts.MaxNodes)
    (hreq : env.podRequestsTotal pods = .ok (memR, cpuR))
    (hcap : env.nodeCapacityTotal (untaintedOf c g allNodes) =
      .ok (memA, cpuA))
    (hok : calcPercentUsage cpuR memR cpuA memA = .ok (cpuP, memP)) :
    scaleNodeGroupBody c env g pods allNodes =
      dispatch env g allNodes (taintedOf c g allNodes)
        (untaintedOf c g allNodes) pods (usageSignal cpuP memP)
        (baseEvents allNodes (untaintedOf c g allNodes)
            (taintedOf c g allNodes) pods ++
          aggEvents cpuR memR cpuA memA ++
          [.logPercents cpuP memP, .gaugeCPUPercent cpuP,
           .gaugeMemPercent memP]) := by
  unfold scaleNodeGroupBody
  rw [if_neg h0, if_neg hmin, if_neg hmax, hreq, hcap]
  simp only [hok]

/-- C3: the percentage computation fails exactly when the CPU or memory
capacity is zero in milli-units; in a cycle that reaches it, that failure
emits a logged error, invokes no mutation and leaves the state unchanged;
with both capacities nonzero it returns both percentages without error. -/
theorem calc_percent_division_guard (c : Opts) (env : Env)
    (g : NodeGroupState) (pods : List Pod) (allNodes : List Node)
    (memR cpuR memA cpuA : Quantity)
    (hp : env.listPods = .ok pods) (hn : env.listNodes = .ok allNodes)
    (h0 : ¬allNodes.length = 0)
    (hmin : ¬(allNodes.length : Int) < g.Opts.MinNodes)
    (hmax : ¬(allNodes.length : Int) > g.Opts.MaxNodes)
    (hreq : env.podRequestsTotal pods = .ok (memR, cpuR))
    (hcap : env.nodeCapacityTotal (untaintedOf c g allNodes) =
      .ok (memA, cpuA)) :
    (isError (calcPercentUsage cpuR memR cpuA memA) = true ↔
      cpuA.MilliValue = 0 ∨ memA.MilliValue = 0) ∧
    ((cpuA.MilliValue = 0 ∨ memA.MilliValue = 0) →
      (scaleNodeGroup c env g).1 =
        baseEvents allNodes (untaintedOf c g allNodes)
            (taintedOf c g allNodes) pods ++
          aggEvents cpuR memR cpuA memA ++ [.errPercent] ∧
      hasMutation (scaleNodeGroup c env g).1 = false ∧
      (scaleNodeGroup c env g).2 = g) ∧
    (¬(cpuA.MilliValue = 0 ∨ memA.MilliValue = 0) →
      calcPercentUsage cpuR memR cpuA memA =
        .ok ((cpuR.MilliValue : ℚ) / (cpuA.MilliValue : ℚ) * 100,
             (memR.MilliValue : ℚ) / (memA.MilliValue : ℚ) * 100)) := by
  refine ⟨?_, ?_, ?_⟩
  · unfold calcPercentUsage
    split_ifs with hz <;> simp [isError, hz]
  · intro hz
    rw [scaleNodeGroup_eq_body c env g pods allNodes hp hn,
      scaleNodeGroupBody_percent_error c env g pods allNodes memR cpuR memA
        cpuA h0 hmin hmax hreq hcap hz]
    refine ⟨rfl, ?_, rfl⟩
    simp [hasMutation, baseEvents, aggEvents, Event.isMutation]
  · intro hz
    unfold calcPercentUsage
    rw [if_neg hz]

/-- An environment that reaches the percentage computation with a zero CPU
capacity. -/
def zeroCapacityEnv : Env :=
  ⟨.ok [], .ok [⟨"n", false⟩], fun _ => .ok (⟨0⟩, ⟨0⟩),
   fun _ => .ok (⟨0⟩, ⟨0⟩),
   fun _ => ⟨0, none, []⟩, fun _ => ⟨0, none, []⟩, fun _ => ⟨0, none, []⟩⟩

/-- Concrete instantiation of the division guard: zero capacities abort the
cycle with no mutation and unchanged state. -/
theorem calc_percent_division_guard_witness :
    isError (calcPercentUsage ⟨0⟩ ⟨0⟩ ⟨0⟩ ⟨0⟩) = true ∧
    hasMutation (scaleNodeGroup ⟨false⟩ zeroCapacityEnv sampleState).1 =
      false ∧
    (scaleNodeGroup ⟨false⟩ zeroCapacityEnv sampleState).2 = sampleState := by
  have h := calc_percent_division_guard ⟨false⟩ zeroCapacityEnv sampleState
    [] [⟨"n", false⟩] ⟨0⟩ ⟨0⟩ ⟨0⟩ ⟨0⟩ rfl rfl (by decide) (by decide)
    (by decide) rfl rfl
  exact ⟨h.1.mpr (Or.inl rfl), (h.2.1 (Or.inl rfl)).2.1,
    (h.2.1 (Or.inl rfl)).2.2⟩

/-- The dispatch step invokes exactly one mutation operation, chosen by the
sign of the delta, passing `|delta|` for scale-down, `delta` for scale-up and
the reap with delta 0, unclamped. -/
theorem dispatch_spec (env : Env) (g : NodeGroupState)
    (allNodes tainted untainted : List Node) (pods : List Pod)
    (maxPercent : Int) (evs : List Event) :
    ((dispatch env g allNodes tainted untainted pods maxPercent evs).1.countP
        Event.isMutation = evs.countP Event.isMutation + 1) ∧
    (calcDelta g.Opts maxPercent < 0 →
      Event.mutScaleDown ⟨allNodes, tainted, untainted, pods, g, maxPercent,
          -(calcDelta g.Opts maxPercent)⟩ ∈
        (dispatch env g allNodes tainted untainted pods maxPercent evs).1) ∧
    (calcDelta g.Opts maxPercent > 0 →
      Event.mutScaleUp ⟨allNodes, tainted, untainted, pods, g, maxPercent,
          calcDelta g.Opts maxPercent⟩ ∈
        (dispatch env g allNodes tainted untainted pods maxPercent evs).1) ∧
    (calcDelta g.Opts maxPercent = 0 →
      Event.mutReap ⟨allNodes, tainted, untainted, pods, g, maxPercent, 0⟩ ∈
        (dispatch env g allNodes tainted untainted pods maxPercent evs).1 ∧
      (dispatch env g allNodes tainted untainted pods maxPercent evs).1.countP
        Event.isScaleDown = evs.countP Event.isScaleDown ∧
      (dispatch env g allNodes tainted untainted pods maxPercent evs).1.countP
        Event.isScaleUp = evs.countP Event.isScaleUp) := by
  unfold dispatch
  dsimp only
  split_ifs with h1 h2
  · cases he : (env.scaleDown ⟨allNodes, tainted, untainted, pods, g,
        maxPercent, -(calcDelta g.Opts maxPercent)⟩).err <;>
      simp [mutErrEvents, he, List.countP_append, List.countP_cons,
        Event.isMutation, Event.isScaleDown, Event.isScaleUp, h1] <;>
      omega
  · cases he : (env.scaleUp ⟨allNodes, tainted, untainted, pods, g,
        maxPercent, calcDelta g.Opts maxPercent⟩).err <;>
      simp [mutErrEvents, he, List.countP_append, List.countP_cons,
        Event.isMutation, Event.isScaleDown, Event.isScaleUp, h1, h2] <;>
      omega
  · cases he : (env.reap ⟨allNodes, tainted, untainted, pods, g,
        maxPercent, 0⟩).err <;>
      simp [mutErrEvents, he, List.countP_append, List.countP_cons,
        Event.isMutation, Event.isScaleDown, Event.isScaleUp, h1, h2] <;>
      omega

/-- The computed delta is always exactly one of the three configured rates
(with the sign the branch gives it) or zero. -/
theorem calcDelta_cases (opts : NodeGroupOptions) (u : Int) :
    calcDelta opts u = -opts.FastNodeRemovalRate ∨
    calcDelta opts u = -opts.SlowNodeRemovalRate ∨
    calcDelta opts u = opts.FastNodeRevivalRate ∨
    calcDelta opts u = 0 := by
  unfold calcDelta
  split_ifs <;> tauto

/-- With ordered taint thresholds, any usage in the inclusive hold range
between the upper taint threshold and the scale-up threshold yields delta
zero. -/
theorem calcDelta_hold_of_ordered (opts : NodeGroupOptions) (u : Int)
    (ho : opts.TaintLowerCapacityThreshholdPercent ≤
      opts.TaintUpperCapacityThreshholdPercent)
    (h1 : opts.TaintUpperCapacityThreshholdPercent ≤ u)
    (h2 : u ≤ opts.ScaleUpThreshholdPercent) :
    calcDelta opts u = 0 := by
  unfold calcDelta
  split_ifs <;> omega

/-- C4 (amended): every cycle that reaches dispatch invokes exactly one
mutation operation, chosen by the sign of the delta — scale-down once with
`|delta|`, scale-up once with `delta`, and for delta zero only the reap,
never scale-up or scale-down; the delta is always exactly a configured rate
or zero, never numerically clamped; and, provided the lower taint threshold
does not exceed the upper one, every usage in the inclusive hold range
between the upper taint threshold and the scale-up threshold yields delta
zero. -/
theorem dispatch_by_sign (c : Opts) (env : Env) (g : NodeGroupState)
    (pods : List Pod) (allNodes : List Node)
    (memR cpuR memA cpuA : Quantity) (cpuP memP : ℚ)
    (hp : env.listPods = .ok pods) (hn : env.listNodes = .ok allNodes)
    (h0 : ¬allNodes.length = 0)
    (hmin : ¬(allNodes.length : Int) < g.Opts.MinNodes)
    (hmax : ¬(allNodes.length : Int) > g.Opts.MaxNodes)
    (hreq : env.podRequestsTotal pods = .ok (memR, cpuR))
    (hcap : env.nodeCapacityTotal (untaintedOf c g allNodes) =
      .ok (memA, cpuA))
    (hok : calcPercentUsage cpuR memR cpuA memA = .ok (cpuP, memP)) :
    (scaleNodeGroup c env g).1.countP Event.isMutation = 1 ∧
    (calcDelta g.Opts (usageSignal cpuP memP) < 0 →
      Event.mutScaleDown ⟨allNodes, taintedOf c g allNodes,
          untaintedOf c g allNodes, pods, g, usageSignal cpuP memP,
          -(calcDelta g.Opts (usageSignal cpuP memP))⟩ ∈
        (scaleNodeGroup c env g).1) ∧
    (calcDelta g.Opts (usageSignal cpuP memP) > 0 →
      Event.mutScaleUp ⟨allNodes, taintedOf c g allNodes,
          untaintedOf c g allNodes, pods, g, usageSignal cpuP memP,
          calcDelta g.Opts (usageSignal cpuP memP)⟩ ∈
        (scaleNodeGroup c env g).1) ∧
    (calcDelta g.Opts (usageSignal cpuP memP) = 0 →
      Event.mutReap ⟨allNodes, taintedOf c g allNodes,
          untaintedOf c g allNodes, pods, g, usageSignal cpuP memP, 0⟩ ∈
        (scaleNodeGroup c env g).1 ∧
      (scaleNodeGroup c env g).1.countP Event.isScaleDown = 0 ∧
      (scaleNodeGroup c env g).1.countP Event.isScaleUp = 0) ∧
    (calcDelta g.Opts (usageSignal cpuP memP) =
        -g.Opts.FastNodeRemovalRate ∨
      calcDelta g.Opts (usageSignal cpuP memP) =
        -g.Opts.SlowNodeRemovalRate ∨
      calcDelta g.Opts (usageSignal cpuP memP) =
        g.Opts.FastNodeRevivalRate ∨
      calcDelta g.Opts (usageSignal cpuP memP) = 0) ∧
    (g.Opts.TaintLowerCapacityThreshholdPercent ≤
        g.Opts.TaintUpperCapacityThreshholdPercent →
      g.Opts.TaintUpperCapacityThreshholdPercent ≤ usageSignal cpuP memP →
      usageSignal cpuP memP ≤ g.Opts.ScaleUpThreshholdPercent →
      calcDelta g.Opts (usageSignal cpuP memP) = 0) := by
  rw [scaleNodeGroup_eq_body c env g pods allNodes hp hn,
    scaleNodeGroupBody_dispatch c env g pods allNodes memR cpuR memA cpuA
      cpuP memP h0 hmin hmax hreq hcap hok]
  have hs := dispatch_spec env g allNodes (taintedOf c g allNodes)
    (untaintedOf c g allNodes) pods (usageSignal cpuP memP)
    (baseEvents allNodes (untaintedOf c g allNodes)
        (taintedOf c g allNodes) pods ++
      aggEvents cpuR memR cpuA memA ++
      [.logPercents cpuP memP, .gaugeCPUPercent cpuP, .gaugeMemPercent memP])
  have hpre1 : (baseEvents allNodes (untaintedOf c g allNodes)
      (taintedOf c g allNodes) pods ++
      aggEvents cpuR memR cpuA memA ++
      [Event.logPercents cpuP memP, Event.gaugeCPUPercent cpuP,
       Event.gaugeMemPercent memP]).countP Event.isMutation = 0 := by
    simp [baseEvents, aggEvents, Event.isMutation]
  have hpre2 : (baseEvents allNodes (untaintedOf c g allNodes)
      (taintedOf c g allNodes) pods ++
      aggEvents cpuR memR cpuA memA ++
      [Event.logPercents cpuP memP, Event.gaugeCPUPercent cpuP,
       Event.gaugeMemPercent memP]).countP Event.isScaleDown = 0 := by
    simp [baseEvents, aggEvents, Event.isScaleDown]
  have hpre3 : (baseEvents allNodes (untaintedOf c g allNodes)
      (taintedOf c g allNodes) pods ++
      aggEvents cpuR memR cpuA memA ++
      [Event.logPercents cpuP memP, Event.gaugeCPUPercent cpuP,
       Event.gaugeMemPercent memP]).countP Event.isScaleUp = 0 := by
    simp [baseEvents, aggEvents, Event.isScaleUp]
  refine ⟨by rw [hs.1, hpre1], hs.2.1, hs.2.2.1, ?_, ?_, ?_⟩
  · intro hz
    obtain ⟨hm, hd, hu⟩ := hs.2.2.2 hz
    exact ⟨hm, by rw [hd, hpre2], by rw [hu, hpre3]⟩
  · exact calcDelta_cases g.Opts (usageSignal cpuP memP)
  · exact calcDelta_hold_of_ordered g.Opts (usageSignal cpuP memP)

/-- A configuration whose taint thresholds are misordered (lower 50 above
upper 30), which the code never validates. -/
def misorderedOpts : NodeGroupOptions :=
  ⟨"misordered", 0, 10, false, 50, 30, 80, 1, 1, 1⟩

/-- Group state for the misordered configuration. -/
def misorderedState : NodeGroupState := ⟨misorderedOpts, []⟩

/-- An environment giving one untainted node of capacity 1000m cpu/mem and
total pod requests of 400m cpu/mem, hence usage 40. -/
def misorderedEnv : Env :=
  ⟨.ok [⟨"p"⟩], .ok [⟨"n", false⟩],
   fun _ => .ok (⟨400⟩, ⟨400⟩), fun _ => .ok (⟨1000⟩, ⟨1000⟩),
   fun _ => ⟨0, none, []⟩, fun _ => ⟨0, none, []⟩, fun _ => ⟨0, none, []⟩⟩

/-- Refutation of the claim as stated: with misordered thresholds, a cycle
whose usage 40 lies in the inclusive hold range [30, 80] between the upper
taint threshold and the scale-up threshold nevertheless invokes scale-down,
and the reap operation is never invoked. -/
theorem dispatch_by_sign_counterexample :
    misorderedState.Opts.TaintUpperCapacityThreshholdPercent ≤ 40 ∧
    (40 : Int) ≤ misorderedState.Opts.ScaleUpThreshholdPercent ∧
    (∀ e ∈ (scaleNodeGroup ⟨false⟩ misorderedEnv misorderedState).1,
      Event.isMutation e = true → Event.usagePayload e = some 40) ∧
    (scaleNodeGroup ⟨false⟩ misorderedEnv misorderedState).1.countP
      Event.isReap = 0 ∧
    (scaleNodeGroup ⟨false⟩ misorderedEnv misorderedState).1.countP
      Event.isScaleDown = 1 := by
  refine ⟨by norm_num [misorderedState, misorderedOpts],
    by norm_num [misorderedState, misorderedOpts], ?_, ?_, ?_⟩ <;>
    norm_num [scaleNodeGroup, scaleNodeGroupBody, dispatch, misorderedEnv,
      misorderedState, misorderedOpts, calcPercentUsage, usageSignal,
      ratTrunc, calcDelta, untaintedOf, taintedOf, nodeTainted, dryMode,
      baseEvents, aggEvents, mutErrEvents, Quantity.MilliValue,
      Quantity.AsInt64, Event.isReap, Event.isScaleDown, Event.isMutation,
      Event.usagePayload, List.countP, List.countP.go]

/-- A well-formed environment reaching dispatch with usage 40. -/
def dispatchEnv : Env :=
  ⟨.ok [⟨"p"⟩], .ok [⟨"n", false⟩],
   fun _ => .ok (⟨400⟩, ⟨400⟩), fun _ => .ok (⟨1000⟩, ⟨1000⟩),
   fun _ => ⟨0, none, []⟩, fun _ => ⟨0, none, []⟩, fun _ => ⟨0, none, []⟩⟩

/-- Concrete instantiation of the dispatch theorem: a cycle reaching
dispatch invokes exactly one mutation operation. -/
theorem dispatch_by_sign_witness :
    (scaleNodeGroup ⟨false⟩ dispatchEnv sampleState).1.countP
      Event.isMutation = 1 :=
  (dispatch_by_sign ⟨false⟩ dispatchEnv sampleState [⟨"p"⟩] [⟨"n", false⟩]
    ⟨400⟩ ⟨400⟩ ⟨1000⟩ ⟨1000⟩ 40 40 rfl rfl (by decide) (by decide)
    (by decide) rfl rfl
    (by norm_num [calcPercentUsage, Quantity.MilliValue])).1

/-- C5: the cycle's partition consults exactly one predicate back-end,
selected by the effective dry-run flag — the simulated taint tracker in dry
mode, the external marked-for-removal predicate otherwise — and the tainted
and untainted lists are disjoint with union exactly the listed nodes. -/
theorem partition_single_backend (c : Opts) (g : NodeGroupState)
    (allNodes : List Node) :
    (taintedOf c g allNodes =
      (if dryMode c g then
        allNodes.filter (fun n => g.taintTracker.contains n.name)
      else allNodes.filter (fun n => n.markedForRemoval))) ∧
    (untaintedOf c g allNodes =
      (if dryMode c g then
        allNodes.filter (fun n => !g.taintTracker.contains n.name)
      else allNodes.filter (fun n => !n.markedForRemoval))) ∧
    (∀ n, n ∈ allNodes ↔
      n ∈ taintedOf c g allNodes ∨ n ∈ untaintedOf c g allNodes) ∧
    (∀ n, ¬(n ∈ taintedOf c g allNodes ∧ n ∈ untaintedOf c g allNodes)) ∧
    List.Perm (untaintedOf c g allNodes ++ taintedOf c g allNodes)
      allNodes := by
  refine ⟨?_, ?_, ?_, ?_, ?_⟩
  · cases h : dryMode c g <;> simp [taintedOf, nodeTainted, h]
  · cases h : dryMode c g <;> simp [untaintedOf, nodeTainted, h]
  · intro n
    simp only [taintedOf, untaintedOf, List.mem_filter, Bool.not_eq_true']
    by_cases hn : nodeTainted c g n <;> simp [hn] <;> tauto
  · intro n
    simp only [taintedOf, untaintedOf, List.mem_filter, Bool.not_eq_true']
    by_cases hn : nodeTainted c g n <;> simp [hn]
  · have h := List.filter_append_perm
      (fun n => !nodeTainted c g n) allNodes
    simpa [untaintedOf, taintedOf] using h

/-- Concrete instantiation of the partition theorem: outside dry mode a node
carrying the removal marker is classified tainted. -/
theorem partition_single_backend_witness :
    taintedOf ⟨false⟩ sampleState [⟨"a", true⟩] = [⟨"a", true⟩] := by
  rw [(partition_single_backend ⟨false⟩ sampleState [⟨"a", true⟩]).1]
  decide

/-- Whatever a mutation error produces in the trace is the error log. -/
theorem mem_mutErrEvents (o : Option String) (e : Event)
    (h : e ∈ mutErrEvents o) : e = Event.mutErrorLogged := by
  cases o <;> simpa [mutErrEvents] using h

/-- Every mutation event the dispatch step appends carries the usage value
it was given, provided the prefix already did. -/
theorem dispatch_usage_payload (env : Env) (g : NodeGroupState)
    (allNodes tainted untainted : List Node) (pods : List Pod)
    (maxPercent : Int) (evs : List Event)
    (hevs : ∀ e ∈ evs, Event.isMutation e = true →
      Event.usagePayload e = some maxPercent) :
    ∀ e ∈ (dispatch env g allNodes tainted untainted pods maxPercent
        evs).1, Event.isMutation e = true →
      Event.usagePayload e = some maxPercent := by
  unfold dispatch
  dsimp only
  split_ifs with h1 h2 <;>
    refine List.forall_mem_append.2
      ⟨List.forall_mem_append.2 ⟨List.forall_mem_append.2 ⟨hevs, ?_⟩, ?_⟩,
       ?_⟩ <;>
    first
      | (intro e he hm
         rw [mem_mutErrEvents _ _ he] at hm
         simp [Event.isMutation] at hm)
      | simp [Event.isMutation, Event.usagePayload]

/-- C6: with both capacities nonzero the percentage computation returns
exactly 100 times the milli-unit request/capacity ratios, and the usage
handed to every dispatched mutation is the larger of the two percentages
truncated to an integer, so the tighter-constrained resource drives the
decision. -/
theorem usage_is_trunc_max_ratio (c : Opts) (env : Env)
    (g : NodeGroupState) (pods : List Pod) (allNodes : List Node)
    (memR cpuR memA cpuA : Quantity)
    (hp : env.listPods = .ok pods) (hn : env.listNodes = .ok allNodes)
    (h0 : ¬allNodes.length = 0)
    (hmin : ¬(allNodes.length : Int) < g.Opts.MinNodes)
    (hmax : ¬(allNodes.length : Int) > g.Opts.MaxNodes)
    (hreq : env.podRequestsTotal pods = .ok (memR, cpuR))
    (hcap : env.nodeCapacityTotal (untaintedOf c g allNodes) =
      .ok (memA, cpuA))
    (hc : cpuA.MilliValue ≠ 0) (hm : memA.MilliValue ≠ 0) :
    calcPercentUsage cpuR memR cpuA memA =
      .ok (100 * ((cpuR.MilliValue : ℚ) / (cpuA.MilliValue : ℚ)),
           100 * ((memR.MilliValue : ℚ) / (memA.MilliValue : ℚ))) ∧
    (∀ e ∈ (scaleNodeGroup c env g).1, Event.isMutation e = true →
      Event.usagePayload e = some (ratTrunc (max
        (100 * ((cpuR.MilliValue : ℚ) / (cpuA.MilliValue : ℚ)))
        (100 * ((memR.MilliValue : ℚ) / (memA.MilliValue : ℚ)))))) := by
  have hok : calcPercentUsage cpuR memR cpuA memA =
      .ok (100 * ((cpuR.MilliValue : ℚ) / (cpuA.MilliValue : ℚ)),
           100 * ((memR.MilliValue : ℚ) / (memA.MilliValue : ℚ))) := by
    unfold calcPercentUsage
    rw [if_neg (by tauto)]
    rw [mul_comm ((cpuR.MilliValue : ℚ) / (cpuA.MilliValue : ℚ)) 100,
      mul_comm ((memR.MilliValue : ℚ) / (memA.MilliValue : ℚ)) 100]
  refine ⟨hok, ?_⟩
  rw [scaleNodeGroup_eq_body c env g pods allNodes hp hn,
    scaleNodeGroupBody_dispatch c env g pods allNodes memR cpuR memA cpuA
      _ _ h0 hmin hmax hreq hcap hok]
  exact dispatch_usage_payload env g allNodes (taintedOf c g allNodes)
    (untaintedOf c g allNodes) pods _ _
    (by simp [baseEvents, aggEvents, Event.isMutation])

/-- Concrete instantiation of the usage theorem: 400m requested of 1000m
capacity on both resources yields 40 percent. -/
theorem usage_is_trunc_max_ratio_witness :
    calcPercentUsage ⟨400⟩ ⟨400⟩ ⟨1000⟩ ⟨1000⟩ = .ok (40, 40) := by
  have h := (usage_is_trunc_max_ratio ⟨false⟩ dispatchEnv sampleState
    [⟨"p"⟩] [⟨"n", false⟩] ⟨400⟩ ⟨400⟩ ⟨1000⟩ ⟨1000⟩ rfl rfl (by decide)
    (by decide) (by decide) rfl rfl (by decide) (by decide)).1
  rw [h]
  norm_num [Quantity.MilliValue]

/-- When the pod-request aggregation fails, the body aborts with the logged
error, state unchanged. -/
theorem scaleNodeGroupBody_requests_error (c : Opts) (env : Env)
    (g : NodeGroupState) (pods : List Pod) (allNodes : List Node)
    (e : String)
    (h0 : ¬allNodes.length = 0)
    (hmin : ¬(allNodes.length : Int) < g.Opts.MinNodes)
    (hmax : ¬(allNodes.length : Int) > g.Opts.MaxNodes)
    (hreq : env.podRequestsTotal pods = .error e) :
    scaleNodeGroupBody c env g pods allNodes =
      (baseEvents allNodes (untaintedOf c g allNodes)
          (taintedOf c g allNodes) pods ++ [.errRequests], g) := by
  unfold scaleNodeGroupBody
  rw [if_neg h0, if_neg hmin, if_neg hmax, hreq]

/-- When the node-capacity aggregation fails, the body aborts with the
logged error, state unchanged. -/
theorem scaleNodeGroupBody_capacity_error (c : Opts) (env : Env)
    (g : NodeGroupState) (pods : List Pod) (allNodes : List Node)
    (memR cpuR : Quantity) (e : String)
    (h0 : ¬allNodes.length = 0)
    (hmin : ¬(allNodes.length : Int) < g.Opts.MinNodes)
    (hmax : ¬(allNodes.length : Int) > g.Opts.MaxNodes)
    (hreq : env.podRequestsTotal pods = .ok (memR, cpuR))
    (hcap : env.nodeCapacityTotal (untaintedOf c g allNodes) = .error e) :
    scaleNodeGroupBody c env g pods allNodes =
      (baseEvents allNodes (untaintedOf c g allNodes)
          (taintedOf c g allNodes) pods ++ [.errCapacity], g) := by
  unfold scaleNodeGroupBody
  rw [if_neg h0, if_neg hmin, if_neg hmax, hreq, hcap]

/-- C7: aggregation consults the pod requests over the full pod list and the
node capacity over the untainted nodes only (the cycle outcome is invariant
under changing the aggregators anywhere else), and a failure of either
aggregation aborts the cycle with a logged error, no mutation and unchanged
state. -/
theorem aggregation_scope_and_abort (c : Opts) (env : Env)
    (g : NodeGroupState) (pods : List Pod) (allNodes : List Node)
    (hp : env.listPods = .ok pods) (hn : env.listNodes = .ok allNodes)
    (h0 : ¬allNodes.length = 0)
    (hmin : ¬(allNodes.length : Int) < g.Opts.MinNodes)
    (hmax : ¬(allNodes.length : Int) > g.Opts.MaxNodes) :
    (∀ f h, f pods = env.podRequestsTotal pods →
      h (untaintedOf c g allNodes) =
        env.nodeCapacityTotal (untaintedOf c g allNodes) →
      scaleNodeGroup c
        { env with podRequestsTotal := f, nodeCapacityTotal := h } g =
      scaleNodeGroup c env g) ∧
    (∀ e, env.podRequestsTotal pods = .error e →
      (scaleNodeGroup c env g).1 =
        baseEvents allNodes (untaintedOf c g allNodes)
          (taintedOf c g allNodes) pods ++ [.errRequests] ∧
      hasMutation (scaleNodeGroup c env g).1 = false ∧
      (scaleNodeGroup c env g).2 = g) ∧
    (∀ e memR cpuR, env.podRequestsTotal pods = .ok (memR, cpuR) →
      env.nodeCapacityTotal (untaintedOf c g allNodes) = .error e →
      (scaleNodeGroup c env g).1 =
        baseEvents allNodes (untaintedOf c g allNodes)
          (taintedOf c g allNodes) pods ++ [.errCapacity] ∧
      hasMutation (scaleNodeGroup c env g).1 = false ∧
      (scaleNodeGroup c env g).2 = g) := by
  refine ⟨?_, ?_, ?_⟩
  · intro f h hf hh
    have hpb := scaleNodeGroup_eq_body c
      { env with podRequestsTotal := f, nodeCapacityTotal := h } g pods
      allNodes hp hn
    rw [hpb, scaleNodeGroup_eq_body c env g pods allNodes hp hn]
    unfold scaleNodeGroupBody dispatch
    dsimp only
    rw [hf, hh]
  · intro e hreq
    rw [scaleNodeGroup_eq_body c env g pods allNodes hp hn,
      scaleNodeGroupBody_requests_error c env g pods allNodes e h0 hmin
        hmax hreq]
    exact ⟨rfl, by simp [hasMutation, baseEvents, Event.isMutation], rfl⟩
  · intro e memR cpuR hreq hcap
    rw [scaleNodeGroup_eq_body c env g pods allNodes hp hn,
      scaleNodeGroupBody_capacity_error c env g pods allNodes memR cpuR e
        h0 hmin hmax hreq hcap]
    exact ⟨rfl, by simp [hasMutation, baseEvents, Event.isMutation], rfl⟩

/-- An environment whose pod-request aggregation fails. -/
def failingAggEnv : Env :=
  ⟨.ok [⟨"p"⟩], .ok [⟨"n", false⟩],
   fun _ => .error "bad requests", fun _ => .ok (⟨1000⟩, ⟨1000⟩),
   fun _ => ⟨0, none, []⟩, fun _ => ⟨0, none, []⟩, fun _ => ⟨0, none, []⟩⟩

/-- Concrete instantiation of the aggregation theorem: a failing request
aggregation yields no mutation and an unchanged state. -/
theorem aggregation_scope_and_abort_witness :
    hasMutation (scaleNodeGroup ⟨false⟩ failingAggEnv sampleState).1 =
      false ∧
    (scaleNodeGroup ⟨false⟩ failingAggEnv sampleState).2 = sampleState :=
  ((aggregation_scope_and_abort ⟨false⟩ failingAggEnv sampleState [⟨"p"⟩]
    [⟨"n", false⟩] rfl rfl (by decide) (by decide) (by decide)).2.1
    "bad requests" rfl).2

/-- C8: one sweep invokes the decision engine exactly once per configured
node group, sequentially; each group's entry of the sweep depends only on
that group's own environment, so a failure or abort in any other group's
cycle can never prevent or change its evaluation. -/
theorem run_once_per_group_isolated (c : Opts) (envs1 envs2 : String → Env)
    (nodeGroups : List (String × NodeGroupState)) (i : Nat)
    (hi : i < nodeGroups.length)
    (ha : envs1 (nodeGroups.get ⟨i, hi⟩).1 =
      envs2 (nodeGroups.get ⟨i, hi⟩).1) :
    (RunOnce c envs1 nodeGroups).length = nodeGroups.length ∧
    (RunOnce c envs1 nodeGroups)[i]? =
      some ((nodeGroups.get ⟨i, hi⟩).1,
        scaleNodeGroup c (envs1 (nodeGroups.get ⟨i, hi⟩).1)
          (nodeGroups.get ⟨i, hi⟩).2) ∧
    (RunOnce c envs1 nodeGroups)[i]? = (RunOnce c envs2 nodeGroups)[i]? := by
  refine ⟨by simp [RunOnce], ?_, ?_⟩
  · simp [RunOnce, List.getElem?_map, List.getElem?_eq_getElem hi]
  · have ha' : envs1 nodeGroups[i].1 = envs2 nodeGroups[i].1 := ha
    simp [RunOnce, List.getElem?_map, List.getElem?_eq_getElem hi, ha']

/-- Concrete instantiation of the sweep theorem on a one-group
controller. -/
theorem run_once_per_group_isolated_witness :
    (RunOnce ⟨false⟩ (fun _ => sampleEmptyEnv)
      [("sample", sampleState)]).length = 1 :=
  (run_once_per_group_isolated ⟨false⟩ (fun _ => sampleEmptyEnv)
    (fun _ => sampleEmptyEnv) [("sample", sampleState)] 0 (by decide)
    rfl).1

/-- A triple append is an extension of its first list. -/
theorem append_prefix3 {α : Type} (l1 l2 l3 l4 : List α) :
    ∃ rest, ((l1 ++ l2) ++ l3) ++ l4 = l1 ++ rest :=
  ⟨l2 ++ (l3 ++ l4), by simp⟩

/-- The dispatch step only ever appends to the emitted prefix. -/
theorem dispatch_trace_prefix (env : Env) (g : NodeGroupState)
    (allNodes tainted untainted : List Node) (pods : List Pod)
    (maxPercent : Int) (evs : List Event) :
    ∃ rest, (dispatch env g allNodes tainted untainted pods maxPercent
      evs).1 = evs ++ rest := by
  unfold dispatch
  dsimp only
  split_ifs <;> exact append_prefix3 _ _ _ _

/-- C9: once both listings succeed, the node-count and pod-count log lines
and gauges are a prefix of the cycle's trace — emitted before the bounds
guard can abort — while a CPU/memory percentage gauge appears in the trace
exactly when the bounds guard, both aggregations and the percentage
computation all succeed. -/
theorem observability_before_guard (c : Opts) (env : Env)
    (g : NodeGroupState) (pods : List Pod) (allNodes : List Node)
    (hp : env.listPods = .ok pods) (hn : env.listNodes = .ok allNodes) :
    (∃ rest, (scaleNodeGroup c env g).1 =
      baseEvents allNodes (untaintedOf c g allNodes)
        (taintedOf c g allNodes) pods ++ rest) ∧
    ((∃ q, Event.gaugeCPUPercent q ∈ (scaleNodeGroup c env g).1) ↔
      (¬allNodes.length = 0 ∧
       ¬(allNodes.length : Int) < g.Opts.MinNodes ∧
       ¬(allNodes.length : Int) > g.Opts.MaxNodes ∧
       ∃ memR cpuR memA cpuA,
         env.podRequestsTotal pods = .ok (memR, cpuR) ∧
         env.nodeCapacityTotal (untaintedOf c g allNodes) =
           .ok (memA, cpuA) ∧
         cpuA.MilliValue ≠ 0 ∧ memA.MilliValue ≠ 0)) ∧
    ((∃ q, Event.gaugeMemPercent q ∈ (scaleNodeGroup c env g).1) ↔
      (¬allNodes.length = 0 ∧
       ¬(allNodes.length : Int) < g.Opts.MinNodes ∧
       ¬(allNodes.length : Int) > g.Opts.MaxNodes ∧
       ∃ memR cpuR memA cpuA,
         env.podRequestsTotal pods = .ok (memR, cpuR) ∧
         env.nodeCapacityTotal (untaintedOf c g allNodes) =
           .ok (memA, cpuA) ∧
         cpuA.MilliValue ≠ 0 ∧ memA.MilliValue ≠ 0)) := by
  rw [scaleNodeGroup_eq_body c env g pods allNodes hp hn]
  by_cases hb : allNodes.length = 0 ∨
      (allNodes.length : Int) < g.Opts.MinNodes ∨
      (allNodes.length : Int) > g.Opts.MaxNodes
  · rw [scaleNodeGroupBody_bounds c env g pods allNodes hb]
    refine ⟨⟨_, rfl⟩, ?_, ?_⟩ <;>
      (constructor
       · rintro ⟨q, hq⟩
         exfalso
         simp only [baseEvents, List.mem_append, List.mem_cons,
           List.mem_singleton, List.not_mem_nil, or_false] at hq
         rcases hq with hq | hq
         · simp at hq
         · split_ifs at hq <;> simp at hq
       · rintro ⟨h0', hmin', hmax', -⟩
         tauto)
  · have h0 : ¬allNodes.length = 0 := fun h => hb (Or.inl h)
    have hmin : ¬(allNodes.length : Int) < g.Opts.MinNodes :=
      fun h => hb (Or.inr (Or.inl h))
    have hmax : ¬(allNodes.length : Int) > g.Opts.MaxNodes :=
      fun h => hb (Or.inr (Or.inr h))
    rcases hreqE : env.podRequestsTotal pods with e | ⟨memR, cpuR⟩
    · rw [scaleNodeGroupBody_requests_error c env g pods allNodes e h0
        hmin hmax hreqE]
      refine ⟨⟨_, rfl⟩, ?_, ?_⟩ <;>
        (constructor
         · rintro ⟨q, hq⟩
           exfalso
           simp [baseEvents] at hq
         · rintro ⟨-, -, -, mr, cr, ma, ca, h1, -⟩
           simp at h1)
    · rcases hcapE : env.nodeCapacityTotal (untaintedOf c g allNodes) with
        e | ⟨memA, cpuA⟩
      · rw [scaleNodeGroupBody_capacity_error c env g pods allNodes memR
          cpuR e h0 hmin hmax hreqE hcapE]
        refine ⟨⟨_, rfl⟩, ?_, ?_⟩ <;>
          (constructor
           · rintro ⟨q, hq⟩
             exfalso
             simp [baseEvents] at hq
           · rintro ⟨-, -, -, mr, cr, ma, ca, h1, h2, -⟩
             simp at h2)
      · by_cases hz : cpuA.MilliValue = 0 ∨ memA.MilliValue = 0
        · rw [scaleNodeGroupBody_percent_error c env g pods allNodes memR
            cpuR memA cpuA h0 hmin hmax hreqE hcapE hz]
          refine ⟨⟨_, rfl⟩, ?_, ?_⟩ <;>
            (constructor
             · rintro ⟨q, hq⟩
               exfalso
               simp [baseEvents, aggEvents] at hq
             · rintro ⟨-, -, -, mr, cr, ma, ca, h1, h2, h3, h4⟩
               simp only [Except.ok.injEq, Prod.mk.injEq] at h2
               obtain ⟨rfl, rfl⟩ := h2
               tauto)
        · have hok : calcPercentUsage cpuR memR cpuA memA =
              .ok ((cpuR.MilliValue : ℚ) / (cpuA.MilliValue : ℚ) * 100,
                   (memR.MilliValue : ℚ) / (memA.MilliValue : ℚ) * 100) := by
            unfold calcPercentUsage
            rw [if_neg hz]
          rw [scaleNodeGroupBody_dispatch c env g pods allNodes memR cpuR
            memA cpuA _ _ h0 hmin hmax hreqE hcapE hok]
          obtain ⟨rest, hrest⟩ := dispatch_trace_prefix env g allNodes
            (taintedOf c g allNodes) (untaintedOf c g allNodes) pods
            (usageSignal ((cpuR.MilliValue : ℚ) / (cpuA.MilliValue : ℚ) * 100)
              ((memR.MilliValue : ℚ) / (memA.MilliValue : ℚ) * 100))
            (baseEvents allNodes (untaintedOf c g allNodes)
                (taintedOf c g allNodes) pods ++
              aggEvents cpuR memR cpuA memA ++
              [.logPercents _ _, .gaugeCPUPercent _, .gaugeMemPercent _])
          rw [hrest]
          push_neg at hz
          refine ⟨append_prefix3 _ _ _ _, ?_, ?_⟩
          · constructor
            · rintro -
              exact ⟨h0, hmin, hmax, memR, cpuR, memA, cpuA, rfl, rfl,
                hz.1, hz.2⟩
            · rintro -
              exact ⟨(cpuR.MilliValue : ℚ) / (cpuA.MilliValue : ℚ) * 100,
                by simp⟩
          · constructor
            · rintro -
              exact ⟨h0, hmin, hmax, memR, cpuR, memA, cpuA, rfl, rfl,
                hz.1, hz.2⟩
            · rintro -
              exact ⟨(memR.MilliValue : ℚ) / (memA.MilliValue : ℚ) * 100,
                by simp⟩

/-- Concrete instantiation of the observability theorem: a cycle aborted by
the empty-group guard emits no percentage gauge. -/
theorem observability_before_guard_witness :
    ¬∃ q, Event.gaugeCPUPercent q ∈
      (scaleNodeGroup ⟨false⟩ sampleEmptyEnv sampleState).1 :=
  fun h =>
    ((observability_before_guard ⟨false⟩ sampleEmptyEnv sampleState [] []
      rfl rfl).2.1.mp h).1 rfl

/-- C10: the decision engine never writes the per-group state itself: the
group options survive every cycle unchanged, a cycle that invokes no
mutation operation returns the state exactly unchanged, and the simulated
taint tracker can change only into the tracker returned by the external
scale-down, scale-up or reap operation invoked at dispatch. -/
theorem engine_frame (c : Opts) (env : Env) (g : NodeGroupState) :
    (scaleNodeGroup c env g).2.Opts = g.Opts ∧
    (hasMutation (scaleNodeGroup c env g).1 = false →
      (scaleNodeGroup c env g).2 = g) ∧
    ((scaleNodeGroup c env g).2.taintTracker = g.taintTracker ∨
      ∃ so : ScaleOpts,
        (Event.mutScaleDown so ∈ (scaleNodeGroup c env g).1 ∧
          (scaleNodeGroup c env g).2.taintTracker =
            (env.scaleDown so).tracker) ∨
        (Event.mutScaleUp so ∈ (scaleNodeGroup c env g).1 ∧
          (scaleNodeGroup c env g).2.taintTracker =
            (env.scaleUp so).tracker) ∨
        (Event.mutReap so ∈ (scaleNodeGroup c env g).1 ∧
          (scaleNodeGroup c env g).2.taintTracker =
            (env.reap so).tracker)) := by
  unfold scaleNodeGroup
  rcases hpE : env.listPods with e | pods
  · exact ⟨rfl, fun _ => rfl, Or.inl rfl⟩
  rcases hnE : env.listNodes with e | allNodes
  · exact ⟨rfl, fun _ => rfl, Or.inl rfl⟩
  unfold scaleNodeGroupBody
  dsimp only
  split_ifs with hg1 hg2 hg3
  · exact ⟨rfl, fun _ => rfl, Or.inl rfl⟩
  · exact ⟨rfl, fun _ => rfl, Or.inl rfl⟩
  · exact ⟨rfl, fun _ => rfl, Or.inl rfl⟩
  rcases hreqE : env.podRequestsTotal pods with e | ⟨memR, cpuR⟩
  · exact ⟨rfl, fun _ => rfl, Or.inl rfl⟩
  dsimp only
  rcases hcapE : env.nodeCapacityTotal (untaintedOf c g allNodes) with
    e | ⟨memA, cpuA⟩
  · exact ⟨rfl, fun _ => rfl, Or.inl rfl⟩
  dsimp only
  rcases hcalc : calcPercentUsage cpuR memR cpuA memA with e | ⟨cpuP, memP⟩
  · exact ⟨rfl, fun _ => rfl, Or.inl rfl⟩
  dsimp only
  unfold dispatch
  dsimp only
  split_ifs with h1 h2
  · refine ⟨rfl, ?_, Or.inr ⟨_, Or.inl ⟨by simp, rfl⟩⟩⟩
    intro hmf
    simp [hasMutation, List.any_append, Event.isMutation] at hmf
  · refine ⟨rfl, ?_, Or.inr ⟨_, Or.inr (Or.inl ⟨by simp, rfl⟩)⟩⟩
    intro hmf
    simp [hasMutation, List.any_append, Event.isMutation] at hmf
  · refine ⟨rfl, ?_, Or.inr ⟨_, Or.inr (Or.inr ⟨by simp, rfl⟩)⟩⟩
    intro hmf
    simp [hasMutation, List.any_append, Event.isMutation] at hmf

/-- Concrete instantiation of the frame theorem: an aborted cycle leaves
the node-group state unchanged. -/
theorem engine_frame_witness :
    (scaleNodeGroup ⟨false⟩ sampleEmptyEnv sampleState).2 = sampleState :=
  (engine_frame ⟨false⟩ sampleEmptyEnv sampleState).2.1 (by decide)
